import Mathlib

/- Shallow embedding of the version-polymorphic watch lifecycle controller and
   the host data source of the `es` package:
   - src/es/resource_elasticsearch_xpack_watch.go
   - src/es/data_source_elasticsearch_host.go
   Backend calls are modelled by an explicit operation record over an abstract
   backend state, and each controller operation additionally returns the list
   of backend calls it issued, in order. -/

namespace Es

/-- The three generations of the elastic client library a backend handle can
carry: `gopkg.in/olivere/elastic.v5`, `.v6` and `github.com/olivere/elastic/v7`.
The variant is fixed by the concrete connection object `getClient` returns. -/
inductive Variant where
  | v5
  | v6
  | v7
deriving DecidableEq, Repr

/-- Go error values that flow through the watch code: each client library has
its own structured error type carrying an HTTP status (`elastic.Error` of v5,
v6 and v7 are three distinct Go types), and everything else (transport
failures, `errors.New`, `fmt.Errorf`) is a generic error with a message. -/
inductive EsError where
  | elastic5Err (status : Nat)
  | elastic6Err (status : Nat)
  | elastic7Err (status : Nat)
  | genericErr (msg : String)
deriving DecidableEq, Repr

/-- `elastic5.IsNotFound`: true exactly on the v5 library's own error type with
HTTP status 404. It does not recognise the other libraries' error types. -/
def elastic5IsNotFound : EsError → Bool
  | .elastic5Err s => s == 404
  | _ => false

/-- `elastic6.IsNotFound`: true exactly on the v6 library's own error type with
HTTP status 404. It does not recognise the other libraries' error types. -/
def elastic6IsNotFound : EsError → Bool
  | .elastic6Err s => s == 404
  | _ => false

/-- `elastic7.IsNotFound`: true exactly on the v7 library's own error type with
HTTP status 404. It does not recognise the other libraries' error types. -/
def elastic7IsNotFound : EsError → Bool
  | .elastic7Err s => s == 404
  | _ => false

/-- The not-found classification used by Create (line 79) and Read (line 99):
`elastic6.IsNotFound(err) || elastic7.IsNotFound(err)`, a single check applied
regardless of the handle's variant. -/
def watchIsNotFound (e : EsError) : Bool :=
  elastic6IsNotFound e || elastic7IsNotFound e

/-- The not-found error shape belonging to a given backend variant: that
variant's own structured error with HTTP status 404. -/
def variantNotFoundShape : Variant → EsError → Bool
  | .v5, .elastic5Err s => s == 404
  | .v6, .elastic6Err s => s == 404
  | .v7, .elastic7Err s => s == 404
  | _, _ => false

/-- `errors.New("watch resource not implemented prior to Elastic v6")`, the
error every watch operation produces on the unsupported v5 variant. -/
def unsupportedErr : EsError :=
  .genericErr "watch resource not implemented prior to Elastic v6"

/-- `fmt.Errorf("watch already exists with ID: %v", watchID)` from Create. -/
def alreadyExistsErr (watchID : String) : EsError :=
  .genericErr ("watch already exists with ID: " ++ watchID)

/-- Modelled from the spec: the error values that a handle of the given
variant's own backend calls can produce (the client libraries themselves are
outside the source tree). A v6 (resp. v7) client call returns either the v6
(resp. v7) library's structured error or a generic transport error; on v5 no
watch backend call is ever made, so the only error produced is the
feature-not-supported error. -/
def producedByVariant : Variant → EsError → Prop
  | .v5, e => e = unsupportedErr
  | .v6, e => (∃ st, e = .elastic6Err st) ∨ (∃ m, e = .genericErr m)
  | .v7, e => (∃ st, e = .elastic7Err st) ∨ (∃ m, e = .genericErr m)

/-- One backend API call, with its arguments, as issued by the controller. -/
inductive BackendCall where
  | getWatch (id : String)
  | putWatch (id : String) (body : String)
  | activate (id : String)
  | deactivate (id : String)
  | deleteWatch (id : String)
deriving DecidableEq, Repr

/-- True exactly on a put-watch call. -/
def BackendCall.isPutWatch : BackendCall → Bool
  | .putWatch _ _ => true
  | _ => false

/-- True on a call that can mutate backend state (put, activate, deactivate,
delete); false on the read-only get. -/
def BackendCall.isMutation : BackendCall → Bool
  | .getWatch _ => false
  | _ => true

/-- The payload of a successful `XPackWatchGet`, projected to what Read uses:
the stored watch body as `json.Marshal` serialises it, and the
`Status.State.Active` flag. -/
structure GetWatchResponse where
  watchJson : String
  active : Bool
deriving DecidableEq, Repr

/-- The backend a handle talks to, as response functions over an abstract
backend state `σ`: each field gives the outcome and successor state of one
raw client call. -/
structure BackendOps (σ : Type) where
  getW : String → σ → (Except EsError GetWatchResponse) × σ
  putW : String → String → σ → (Except EsError Unit) × σ
  act : String → σ → (Except EsError Unit) × σ
  deact : String → σ → (Except EsError Unit) × σ
  delW : String → σ → (Except EsError Unit) × σ

/-- Result of one adapter-level operation: the Go return value, the backend
state afterwards, and the backend calls issued, in order. -/
structure OpResult (σ α : Type) where
  result : Except EsError α
  state : σ
  trace : List BackendCall
deriving Repr

/-- The `schema.ResourceData` slice the watch code touches: the declared field
values read via `d.Get`, the tracked identifier `d.Id()` mutated via `d.SetId`,
and the output attributes written via `ds.set` (absent when never written). -/
structure ResourceData where
  watch_id : String
  body : String
  active : Bool
  id : String
  writtenBody : Option String
  writtenWatchId : Option String
  writtenActive : Option Bool
deriving DecidableEq, Repr

/-- Result of one lifecycle operation that may mutate the resource data. -/
structure WatchOpResult (σ : Type) where
  result : Except EsError Unit
  d : ResourceData
  state : σ
  trace : List BackendCall
deriving Repr

/-- `resourceElasticsearchGetWatch` (lines 167-184): dispatch on the client
variant; v6 and v7 issue `XPackWatchGet(watchID)`, anything older fails with
the not-implemented error without a backend call. `getClient` is assumed to
succeed and yield the handle's variant. -/
def resourceElasticsearchGetWatch {σ : Type} (ops : BackendOps σ) (v : Variant)
    (watchID : String) (s : σ) : OpResult σ GetWatchResponse :=
  match v with
  | .v7 => ⟨(ops.getW watchID s).1, (ops.getW watchID s).2, [.getWatch watchID]⟩
  | .v6 => ⟨(ops.getW watchID s).1, (ops.getW watchID s).2, [.getWatch watchID]⟩
  | .v5 => ⟨.error unsupportedErr, s, []⟩

/-- The activation call `activateWatcher` selects for a given `active` flag. -/
def activationCallOf (isActive : Bool) (watchID : String) : BackendCall :=
  if isActive then .activate watchID else .deactivate watchID

/-- The raw backend call `activateWatcher` issues:
`XPackWatchActivate(watchID)` when active, else `XPackWatchDeactivate(watchID)`. -/
def activationOp {σ : Type} (ops : BackendOps σ) (isActive : Bool)
    (watchID : String) (s : σ) : (Except EsError Unit) × σ :=
  if isActive then ops.act watchID s else ops.deact watchID s

/-- `activateWatcher` (lines 223-247): on v6/v7 issue activate or deactivate
per the flag and return its error; on v5 fail with the not-implemented error
without a backend call. -/
def activateWatcher {σ : Type} (ops : BackendOps σ) (v : Variant)
    (watchID : String) (isActive : Bool) (s : σ) : OpResult σ Unit :=
  match v with
  | .v7 => ⟨(activationOp ops isActive watchID s).1,
            (activationOp ops isActive watchID s).2,
            [activationCallOf isActive watchID]⟩
  | .v6 => ⟨(activationOp ops isActive watchID s).1,
            (activationOp ops isActive watchID s).2,
            [activationCallOf isActive watchID]⟩
  | .v5 => ⟨.error unsupportedErr, s, []⟩

/-- `resourceElasticsearchPutWatch` (lines 186-220): read `watch_id`, `body`
and `active` from the declared values; on v6/v7 issue `XPackWatchPut` with the
body; a put failure returns immediately; on put success call `activateWatcher`
and fail if it fails; on v5 fail with the not-implemented error before any
backend call. Returns the watch id on success. -/
def resourceElasticsearchPutWatch {σ : Type} (ops : BackendOps σ) (v : Variant)
    (d : ResourceData) (s : σ) : OpResult σ String :=
  let watchID := d.watch_id
  let watchJSON := d.body
  let isActive := d.active
  let put : OpResult σ Unit :=
    match v with
    | .v7 => ⟨(ops.putW watchID watchJSON s).1, (ops.putW watchID watchJSON s).2,
              [.putWatch watchID watchJSON]⟩
    | .v6 => ⟨(ops.putW watchID watchJSON s).1, (ops.putW watchID watchJSON s).2,
              [.putWatch watchID watchJSON]⟩
    | .v5 => ⟨.error unsupportedErr, s, []⟩
  match put.result with
  | .error e => ⟨.error e, put.state, put.trace⟩
  | .ok _ =>
    let a := activateWatcher ops v watchID isActive put.state
    match a.result with
    | .error e2 => ⟨.error e2, a.state, put.trace ++ a.trace⟩
    | .ok _ => ⟨.ok watchID, a.state, put.trace ++ a.trace⟩

/-- `resourceElasticsearchWatchRead` (lines 96-137): get the watch by the
tracked id `d.Id()`; a not-found error (per `watchIsNotFound`) clears the id
and succeeds without writing any attribute; any other error is returned; on
success project the variant-specific response to the serialized body and the
active state (the switch has no v5 case, leaving a nil body and false status)
and write `body`, `watch_id` and `active`. -/
def resourceElasticsearchWatchRead {σ : Type} (ops : BackendOps σ) (v : Variant)
    (d : ResourceData) (s : σ) : WatchOpResult σ :=
  let g := resourceElasticsearchGetWatch ops v d.id s
  match g.result with
  | .error e =>
    if watchIsNotFound e then ⟨.ok (), { d with id := "" }, g.state, g.trace⟩
    else ⟨.error e, d, g.state, g.trace⟩
  | .ok res =>
    let proj : String × Bool :=
      match v with
      | .v7 => (res.watchJson, res.active)
      | .v6 => (res.watchJson, res.active)
      | .v5 => ("", false)
    ⟨.ok (),
     { d with writtenBody := some proj.1, writtenWatchId := some d.id,
              writtenActive := some proj.2 },
     g.state, g.trace⟩

/-- `resourceElasticsearchWatchCreate` (lines 70-94): probe existence with
get-watch on the declared `watch_id`; success means the watch already exists
and Create fails with the already-exists error; an error that is not a
confirmed not-found shape is returned as is; on not-found, put the watch,
set the tracked id to the returned watch id and finish with a Read. -/
def resourceElasticsearchWatchCreate {σ : Type} (ops : BackendOps σ) (v : Variant)
    (d : ResourceData) (s : σ) : WatchOpResult σ :=
  let g := resourceElasticsearchGetWatch ops v d.watch_id s
  match g.result with
  | .ok _ => ⟨.error (alreadyExistsErr d.watch_id), d, g.state, g.trace⟩
  | .error e =>
    if watchIsNotFound e then
      let p := resourceElasticsearchPutWatch ops v d g.state
      match p.result with
      | .error e2 => ⟨.error e2, d, p.state, g.trace ++ p.trace⟩
      | .ok wid =>
        let r := resourceElasticsearchWatchRead ops v { d with id := wid } p.state
        ⟨r.result, r.d, r.state, g.trace ++ p.trace ++ r.trace⟩
    else ⟨.error e, d, g.state, g.trace⟩

/-- `resourceElasticsearchWatchUpdate` (lines 139-147): put the watch with the
declared values (no existence probe); a put failure is returned; on success
finish with a Read of the tracked id. -/
def resourceElasticsearchWatchUpdate {σ : Type} (ops : BackendOps σ) (v : Variant)
    (d : ResourceData) (s : σ) : WatchOpResult σ :=
  let p := resourceElasticsearchPutWatch ops v d s
  match p.result with
  | .error e => ⟨.error e, d, p.state, p.trace⟩
  | .ok _ =>
    let r := resourceElasticsearchWatchRead ops v d p.state
    ⟨r.result, r.d, r.state, p.trace ++ r.trace⟩

/-- `resourceElasticsearchWatchDelete` (lines 149-165): on v6/v7 issue
`XPackWatchDelete` on the tracked id and return its error unchanged (no
not-found branch, no state change); on v5 fail with the not-implemented error
without a backend call. -/
def resourceElasticsearchWatchDelete {σ : Type} (ops : BackendOps σ) (v : Variant)
    (d : ResourceData) (s : σ) : OpResult σ Unit :=
  match v with
  | .v7 => ⟨(ops.delW d.id s).1, (ops.delW d.id s).2, [.deleteWatch d.id]⟩
  | .v6 => ⟨(ops.delW d.id s).1, (ops.delW d.id s).2, [.deleteWatch d.id]⟩
  | .v5 => ⟨.error unsupportedErr, s, []⟩

/-- One declared attribute of a data source schema. -/
structure SchemaAttr where
  name : String
  required : Bool
  computed : Bool
deriving DecidableEq, Repr

/-- The `elasticsearch_host` data source schema (lines 18-29 of
data_source_elasticsearch_host.go): a required `active` input and a computed
`url` output. -/
def dataSourceElasticsearchHostSchema : List SchemaAttr :=
  [⟨"active", true, false⟩, ⟨"url", false, true⟩]

/-- A backend handle as the host data source sees it: the connection's variant
and its internal ordered endpoint list (the private `urls` field reached via
reflection). -/
structure Client where
  variant : Variant
  urls : List String
deriving Repr

/-- The `schema.ResourceData` slice the host data source touches: the tracked
identifier, the declared `active` input and the computed `url` attribute
(absent when never written). -/
structure HostResourceData where
  id : String
  active : Bool
  writtenUrl : Option String
deriving DecidableEq, Repr

/-- Result of the host data source read: the Go error, the resource data
afterwards, and the backend calls issued (the read only inspects local
connection state). -/
structure HostReadResult where
  result : Except EsError Unit
  d : HostResourceData
  trace : List BackendCall
deriving Repr

/-- `dataSourceElasticsearchHostRead` (lines 33-64): dispatch on the client
variant (all three supported); each branch reads the connection's private
`urls` list via reflection and, when it is non-empty, sets the tracked id to
its first entry; then return the (nil) error from `getClient`, which is
assumed to succeed. No attribute is written and no backend call is made. -/
def dataSourceElasticsearchHostRead (c : Client) (d : HostResourceData) :
    HostReadResult :=
  let d1 :=
    match c.variant with
    | .v7 =>
      match c.urls with
      | u :: _ => { d with id := u }
      | [] => d
    | .v6 =>
      match c.urls with
      | u :: _ => { d with id := u }
      | [] => d
    | .v5 =>
      match c.urls with
      | u :: _ => { d with id := u }
      | [] => d
  ⟨.ok (), d1, []⟩

/-- Abstract store of watches used as a concrete backend instance for the
scenario conjuncts and witnesses: id, stored body, active flag. -/
abbrev WatchStore := List (String × String × Bool)

/-- Lookup of a watch id in a store. -/
def storeGet (id : String) : WatchStore → Option (String × Bool)
  | [] => none
  | (i, b, a) :: rest => if i = id then some (b, a) else storeGet id rest

/-- A concrete well-behaved v7 backend over `WatchStore`: get answers from the
store (404 of the v7 shape when absent), put stores the body, activate and
deactivate flip the stored flag, delete removes the entry and fails with a v7
404 when the id is absent. -/
def storeOps : BackendOps WatchStore where
  getW id s :=
    match storeGet id s with
    | some (b, a) => (.ok ⟨b, a⟩, s)
    | none => (.error (.elastic7Err 404), s)
  putW id body s := (.ok (), (id, body, true) :: s.filter (fun e => e.1 != id))
  act id s := (.ok (), s.map (fun e => if e.1 = id then (e.1, e.2.1, true) else e))
  deact id s := (.ok (), s.map (fun e => if e.1 = id then (e.1, e.2.1, false) else e))
  delW id s :=
    match storeGet id s with
    | some _ => (.ok (), s.filter (fun e => e.1 != id))
    | none => (.error (.elastic7Err 404), s)

/-- A fresh declared watch resource, before any backend interaction. -/
def freshWatch (watchID body : String) (active : Bool) : ResourceData :=
  ⟨watchID, body, active, "", none, none, none⟩

/-- A concrete backend whose every call fails with a generic transport error
(never a not-found shape). -/
def failingOps : BackendOps WatchStore where
  getW _ s := (.error (.genericErr "connection refused"), s)
  putW _ _ s := (.error (.genericErr "connection refused"), s)
  act _ s := (.error (.genericErr "connection refused"), s)
  deact _ s := (.error (.genericErr "connection refused"), s)
  delW _ s := (.error (.genericErr "connection refused"), s)

/-- A concrete backend like `storeOps` except that activate and deactivate
always fail. -/
def actFailOps : BackendOps WatchStore :=
  { storeOps with
    act := fun _ s => (.error (.genericErr "activation failed"), s)
    deact := fun _ s => (.error (.genericErr "activation failed"), s) }

/- Helper lemmas about the put-then-activate sequencing shared by the
lifecycle theorems. -/

lemma putWatch_put_error {σ : Type} (ops : BackendOps σ) (v : Variant)
    (d : ResourceData) (s : σ) (e : EsError) (s1 : σ) (hv : v ≠ .v5)
    (h : ops.putW d.watch_id d.body s = (.error e, s1)) :
    resourceElasticsearchPutWatch ops v d s
      = ⟨.error e, s1, [.putWatch d.watch_id d.body]⟩ := by
  cases v with
  | v5 => exact absurd rfl hv
  | v6 => simp [resourceElasticsearchPutWatch, h]
  | v7 => simp [resourceElasticsearchPutWatch, h]

lemma putWatch_put_ok_act_error {σ : Type} (ops : BackendOps σ) (v : Variant)
    (d : ResourceData) (s : σ) (u : Unit) (s1 : σ) (e2 : EsError) (s2 : σ)
    (hv : v ≠ .v5)
    (hput : ops.putW d.watch_id d.body s = (.ok u, s1))
    (hact : activationOp ops d.active d.watch_id s1 = (.error e2, s2)) :
    resourceElasticsearchPutWatch ops v d s
      = ⟨.error e2, s2,
         [.putWatch d.watch_id d.body, activationCallOf d.active d.watch_id]⟩ := by
  cases v with
  | v5 => exact absurd rfl hv
  | v6 => simp [resourceElasticsearchPutWatch, activateWatcher, hput, hact]
  | v7 => simp [resourceElasticsearchPutWatch, activateWatcher, hput, hact]

lemma putWatch_put_ok_act_ok {σ : Type} (ops : BackendOps σ) (v : Variant)
    (d : ResourceData) (s : σ) (u : Unit) (s1 : σ) (u2 : Unit) (s2 : σ)
    (hv : v ≠ .v5)
    (hput : ops.putW d.watch_id d.body s = (.ok u, s1))
    (hact : activationOp ops d.active d.watch_id s1 = (.ok u2, s2)) :
    resourceElasticsearchPutWatch ops v d s
      = ⟨.ok d.watch_id, s2,
         [.putWatch d.watch_id d.body, activationCallOf d.active d.watch_id]⟩ := by
  cases v with
  | v5 => exact absurd rfl hv
  | v6 => simp [resourceElasticsearchPutWatch, activateWatcher, hput, hact]
  | v7 => simp [resourceElasticsearchPutWatch, activateWatcher, hput, hact]

lemma watchRead_get_ok {σ : Type} (ops : BackendOps σ) (v : Variant)
    (d : ResourceData) (s : σ) (resp : GetWatchResponse) (s1 : σ)
    (hv : v ≠ .v5)
    (h : ops.getW d.id s = (.ok resp, s1)) :
    resourceElasticsearchWatchRead ops v d s
      = ⟨.ok (),
         { d with writtenBody := some resp.watchJson,
                  writtenWatchId := some d.id,
                  writtenActive := some resp.active },
         s1, [.getWatch d.id]⟩ := by
  cases v with
  | v5 => exact absurd rfl hv
  | v6 => simp [resourceElasticsearchWatchRead, resourceElasticsearchGetWatch, h]
  | v7 => simp [resourceElasticsearchWatchRead, resourceElasticsearchGetWatch, h]

/-- C1 counterexample: the not-found classification used by Create and Read is
the single variant-independent check `watchIsNotFound`, and it classifies the
v7 library's not-found shape as NotFound even though, for a handle of variant
v6, that shape belongs to another variant — refuting the cross-variant
isolation the claim asserts ("never classifies the other two variants'
not-found shapes as NotFound"). -/
theorem watchIsNotFound_cross_variant_accepted :
    Variant.v7 ≠ Variant.v6
    ∧ variantNotFoundShape .v7 (.elastic7Err 404) = true
    ∧ variantNotFoundShape .v6 (.elastic7Err 404) = false
    ∧ watchIsNotFound (.elastic7Err 404) = true := by
  decide

/-- C1 (amended): restricted to the error values a handle's own variant's
backend calls can actually produce, the classification used by Create and Read
agrees with the handle's variant's own not-found shape (so no cross-variant
false positive can arise at runtime), and the v5 library's not-found shape is
never classified as NotFound; but as a function the classification is
variant-independent and accepts both the v6 and the v7 shapes. -/
theorem watchIsNotFound_own_shape_on_produced :
    (∀ (v : Variant) (e : EsError), producedByVariant v e →
        watchIsNotFound e = variantNotFoundShape v e)
    ∧ (∀ e, elastic5IsNotFound e = true → watchIsNotFound e = false) := by
  constructor
  · intro v e h
    cases v with
    | v5 =>
      rw [show e = unsupportedErr from h]
      rfl
    | v6 =>
      rcases h with ⟨st, rfl⟩ | ⟨m, rfl⟩
      · simp [watchIsNotFound, elastic6IsNotFound, elastic7IsNotFound,
              variantNotFoundShape]
      · rfl
    | v7 =>
      rcases h with ⟨st, rfl⟩ | ⟨m, rfl⟩
      · simp [watchIsNotFound, elastic6IsNotFound, elastic7IsNotFound,
              variantNotFoundShape]
      · rfl
  · intro e h
    cases e <;> simp_all [elastic5IsNotFound, watchIsNotFound,
      elastic6IsNotFound, elastic7IsNotFound]

/-- C1 witness: on a v6 handle, the v6 not-found shape is an error its own
backend calls produce, and the classification agrees with the v6 shape on it. -/
theorem watchIsNotFound_own_shape_on_produced_witness :
    producedByVariant .v6 (.elastic6Err 404)
    ∧ watchIsNotFound (.elastic6Err 404) = variantNotFoundShape .v6 (.elastic6Err 404) :=
  ⟨Or.inl ⟨404, rfl⟩,
   watchIsNotFound_own_shape_on_produced.1 .v6 (.elastic6Err 404) (Or.inl ⟨404, rfl⟩)⟩

/-- C6: on the unsupported v5 variant, Create, Read, Update and Delete all
fail with the feature-not-supported error, leave the resource data and the
backend state untouched, and issue no backend call (empty trace); and that
error is distinct from NotFound under every not-found classification. -/
theorem watch_ops_unsupported_on_v5 {σ : Type} (ops : BackendOps σ)
    (d : ResourceData) (s : σ) :
    resourceElasticsearchWatchCreate ops .v5 d s = ⟨.error unsupportedErr, d, s, []⟩
    ∧ resourceElasticsearchWatchRead ops .v5 d s = ⟨.error unsupportedErr, d, s, []⟩
    ∧ resourceElasticsearchWatchUpdate ops .v5 d s = ⟨.error unsupportedErr, d, s, []⟩
    ∧ resourceElasticsearchWatchDelete ops .v5 d s = ⟨.error unsupportedErr, s, []⟩
    ∧ watchIsNotFound unsupportedErr = false
    ∧ (∀ v, variantNotFoundShape v unsupportedErr = false) := by
  refine ⟨rfl, rfl, rfl, rfl, rfl, ?_⟩
  intro v
  cases v <;> rfl

/-- C9: on a supporting variant, Delete issues exactly one delete call on the
tracked id and returns the backend's outcome unchanged — there is no NotFound
branch, so a backend error (e.g. deleting an already-absent id) is surfaced
as is. -/
theorem watchDelete_passthrough {σ : Type} (ops : BackendOps σ) (v : Variant)
    (d : ResourceData) (s : σ) (hv : v ≠ .v5) :
    resourceElasticsearchWatchDelete ops v d s
      = ⟨(ops.delW d.id s).1, (ops.delW d.id s).2, [.deleteWatch d.id]⟩ := by
  cases v with
  | v5 => exact absurd rfl hv
  | v6 => rfl
  | v7 => rfl

/-- C9 witness: on the concrete store backend, deleting an absent id surfaces
the backend's 404 error unchanged rather than converting it to success. -/
theorem watchDelete_passthrough_witness :
    Variant.v7 ≠ Variant.v5
    ∧ resourceElasticsearchWatchDelete storeOps .v7
        ⟨"w1", "bodyA", true, "w1", none, none, none⟩ []
      = ⟨(storeOps.delW "w1" []).1, (storeOps.delW "w1" []).2, [.deleteWatch "w1"]⟩
    ∧ (storeOps.delW "w1" ([] : WatchStore)).1 = .error (.elastic7Err 404) :=
  ⟨by decide,
   watchDelete_passthrough storeOps .v7 ⟨"w1", "bodyA", true, "w1", none, none, none⟩
     [] (by decide),
   rfl⟩

/-- C8: on every handle, of any of the three variants, the host read sets the
tracked identifier to the first entry of the handle's endpoint list when it is
non-empty; on an empty list it leaves the resource data untouched and still
returns no error; and in both cases it issues no backend call. -/
theorem hostRead_first_endpoint (c : Client) (d : HostResourceData) :
    (c.urls = [] → dataSourceElasticsearchHostRead c d = ⟨.ok (), d, []⟩)
    ∧ (∀ u rest, c.urls = u :: rest →
        dataSourceElasticsearchHostRead c d = ⟨.ok (), { d with id := u }, []⟩) := by
  rcases c with ⟨v, urls⟩
  constructor
  · rintro rfl
    cases v <;> rfl
  · rintro u rest rfl
    cases v <;> rfl

/-- C8 witness: a handle with endpoints http a then http b yields the first
entry as the identifier, with no error and no backend call. -/
theorem hostRead_first_endpoint_witness :
    dataSourceElasticsearchHostRead
        ⟨.v6, ["http://a:9200", "http://b:9200"]⟩ ⟨"", true, none⟩
      = ⟨.ok (), ⟨"http://a:9200", true, none⟩, []⟩ :=
  (hostRead_first_endpoint ⟨.v6, ["http://a:9200", "http://b:9200"]⟩
      ⟨"", true, none⟩).2 "http://a:9200" ["http://b:9200"] rfl

/-- C10: the host read modifies at most the tracked identifier: for every
handle and every prior resource-data state it leaves the `active` input and
the computed `url` attribute exactly as they were — in particular the `url`
attribute the schema declares is never written by this operation — and it
always succeeds with an empty backend trace. -/
theorem hostRead_frame (c : Client) (d : HostResourceData) :
    (dataSourceElasticsearchHostRead c d).d.active = d.active
    ∧ (dataSourceElasticsearchHostRead c d).d.writtenUrl = d.writtenUrl
    ∧ (dataSourceElasticsearchHostRead c d).result = .ok ()
    ∧ (dataSourceElasticsearchHostRead c d).trace = []
    ∧ (⟨"url", false, true⟩ : SchemaAttr) ∈ dataSourceElasticsearchHostSchema := by
  rcases c with ⟨v, urls⟩
  cases v <;> cases urls <;>
    simp [dataSourceElasticsearchHostRead, dataSourceElasticsearchHostSchema]

/-- C2: whenever Create's existence probe succeeds, Create fails with the
already-exists error, its trace contains no put call, and the backend state is
exactly the probe's; and on the concrete store backend, two consecutive
Creates of the same id leave the first Create's stored watch in place while
the second fails with the already-exists error. -/
theorem watchCreate_existing_id_already_exists {σ : Type} (ops : BackendOps σ)
    (v : Variant) (d : ResourceData) (s : σ) (r : GetWatchResponse)
    (h : (resourceElasticsearchGetWatch ops v d.watch_id s).result = .ok r) :
    ((resourceElasticsearchWatchCreate ops v d s).result
        = .error (alreadyExistsErr d.watch_id)
      ∧ (resourceElasticsearchWatchCreate ops v d s).trace.all
          (fun c => !c.isPutWatch) = true
      ∧ (resourceElasticsearchWatchCreate ops v d s).state
          = (resourceElasticsearchGetWatch ops v d.watch_id s).state)
    ∧ ((resourceElasticsearchWatchCreate storeOps .v7
          (freshWatch "w1" "bodyA" true) []).result = .ok ()
      ∧ (resourceElasticsearchWatchCreate storeOps .v7
          (freshWatch "w1" "bodyA" true) []).state = [("w1", "bodyA", true)]
      ∧ (resourceElasticsearchWatchCreate storeOps .v7
          (resourceElasticsearchWatchCreate storeOps .v7
            (freshWatch "w1" "bodyA" true) []).d
          (resourceElasticsearchWatchCreate storeOps .v7
            (freshWatch "w1" "bodyA" true) []).state).result
        = .error (alreadyExistsErr "w1")
      ∧ (resourceElasticsearchWatchCreate storeOps .v7
          (resourceElasticsearchWatchCreate storeOps .v7
            (freshWatch "w1" "bodyA" true) []).d
          (resourceElasticsearchWatchCreate storeOps .v7
            (freshWatch "w1" "bodyA" true) []).state).state
        = [("w1", "bodyA", true)]) := by
  constructor
  · have hc : resourceElasticsearchWatchCreate ops v d s =
        ⟨.error (alreadyExistsErr d.watch_id), d,
         (resourceElasticsearchGetWatch ops v d.watch_id s).state,
         (resourceElasticsearchGetWatch ops v d.watch_id s).trace⟩ := by
      simp [resourceElasticsearchWatchCreate, h]
    rw [hc]
    refine ⟨rfl, ?_, rfl⟩
    cases v <;> simp [resourceElasticsearchGetWatch, BackendCall.isPutWatch]
  · exact ⟨rfl, rfl, rfl, rfl⟩

/-- C2 witness: on the store backend holding the watch, the probe succeeds and
the instantiated conclusion holds. -/
theorem watchCreate_existing_id_already_exists_witness :
    (resourceElasticsearchGetWatch storeOps .v7 "w1" [("w1", "bodyA", true)]).result
      = .ok ⟨"bodyA", true⟩
    ∧ ((resourceElasticsearchWatchCreate storeOps .v7
          (freshWatch "w1" "bodyA" true) [("w1", "bodyA", true)]).result
        = .error (alreadyExistsErr "w1")
      ∧ (resourceElasticsearchWatchCreate storeOps .v7
          (freshWatch "w1" "bodyA" true) [("w1", "bodyA", true)]).trace.all
          (fun c => !c.isPutWatch) = true
      ∧ (resourceElasticsearchWatchCreate storeOps .v7
          (freshWatch "w1" "bodyA" true) [("w1", "bodyA", true)]).state
        = (resourceElasticsearchGetWatch storeOps .v7 "w1"
            [("w1", "bodyA", true)]).state) :=
  ⟨rfl,
   (watchCreate_existing_id_already_exists storeOps .v7
      (freshWatch "w1" "bodyA" true) [("w1", "bodyA", true)]
      ⟨"bodyA", true⟩ rfl).1⟩

/-- C3: when Create's existence probe returns an error that is not a confirmed
not-found shape, Create returns that error unchanged, leaves the resource data
untouched, ends in the probe's backend state, and its whole trace is the
probe's trace, which contains no mutating call (no put, activate, deactivate
or delete). -/
theorem watchCreate_ambiguous_probe_aborts {σ : Type} (ops : BackendOps σ)
    (v : Variant) (d : ResourceData) (s : σ) (e : EsError) (s1 : σ)
    (tr : List BackendCall)
    (hg : resourceElasticsearchGetWatch ops v d.watch_id s = ⟨.error e, s1, tr⟩)
    (hnf : watchIsNotFound e = false) :
    resourceElasticsearchWatchCreate ops v d s = ⟨.error e, d, s1, tr⟩
    ∧ tr.all (fun c => !c.isMutation) = true := by
  constructor
  · simp [resourceElasticsearchWatchCreate, hg, hnf]
  · have htr : tr = (resourceElasticsearchGetWatch ops v d.watch_id s).trace := by
      rw [hg]
    rw [htr]
    cases v <;> simp [resourceElasticsearchGetWatch, BackendCall.isMutation]

/-- C3 witness: on the concrete backend whose get fails with a generic
transport error, Create aborts with that error after only the probe call. -/
theorem watchCreate_ambiguous_probe_aborts_witness :
    watchIsNotFound (.genericErr "connection refused") = false
    ∧ (resourceElasticsearchWatchCreate failingOps .v7
          (freshWatch "w1" "bodyA" true) []
        = ⟨.error (.genericErr "connection refused"),
           freshWatch "w1" "bodyA" true, [], [.getWatch "w1"]⟩
      ∧ ([BackendCall.getWatch "w1"] : List BackendCall).all
          (fun c => !c.isMutation) = true) :=
  ⟨rfl,
   watchCreate_ambiguous_probe_aborts failingOps .v7
     (freshWatch "w1" "bodyA" true) [] (.genericErr "connection refused")
     [] [.getWatch "w1"] rfl rfl⟩

/-- C4: when the get reports a confirmed not-found error, Read succeeds,
clears the tracked identifier to the empty string and writes no output
attribute (body, watch_id and active stay exactly as they were); and on the
concrete store backend, Delete of an existing watch followed by Read reports
the resource absent without error, with the identifier cleared and nothing
written. -/
theorem watchRead_notFound_clears_id {σ : Type} (ops : BackendOps σ)
    (v : Variant) (d : ResourceData) (s : σ) (e : EsError) (s1 : σ)
    (tr : List BackendCall)
    (hg : resourceElasticsearchGetWatch ops v d.id s = ⟨.error e, s1, tr⟩)
    (hnf : watchIsNotFound e = true) :
    resourceElasticsearchWatchRead ops v d s
      = ⟨.ok (), { d with id := "" }, s1, tr⟩
    ∧ ((resourceElasticsearchWatchDelete storeOps .v7
          ⟨"w1", "bodyA", true, "w1", none, none, none⟩
          [("w1", "bodyA", true)]).result = .ok ()
      ∧ (resourceElasticsearchWatchDelete storeOps .v7
          ⟨"w1", "bodyA", true, "w1", none, none, none⟩
          [("w1", "bodyA", true)]).state = []
      ∧ resourceElasticsearchWatchRead storeOps .v7
          ⟨"w1", "bodyA", true, "w1", none, none, none⟩
          (resourceElasticsearchWatchDelete storeOps .v7
            ⟨"w1", "bodyA", true, "w1", none, none, none⟩
            [("w1", "bodyA", true)]).state
        = ⟨.ok (), ⟨"w1", "bodyA", true, "", none, none, none⟩, [],
           [.getWatch "w1"]⟩) := by
  constructor
  · simp [resourceElasticsearchWatchRead, hg, hnf]
  · exact ⟨rfl, rfl, rfl⟩

/-- C4 witness: on the store backend with no stored watch, the get reports the
v7 not-found shape and the instantiated conclusion holds. -/
theorem watchRead_notFound_clears_id_witness :
    (resourceElasticsearchGetWatch storeOps .v7 "w1" ([] : WatchStore)
        = ⟨.error (.elastic7Err 404), [], [.getWatch "w1"]⟩
      ∧ watchIsNotFound (.elastic7Err 404) = true)
    ∧ resourceElasticsearchWatchRead storeOps .v7
        ⟨"w1", "bodyA", true, "w1", none, none, none⟩ []
      = ⟨.ok (), ⟨"w1", "bodyA", true, "", none, none, none⟩, [],
         [.getWatch "w1"]⟩ :=
  ⟨⟨rfl, rfl⟩,
   (watchRead_notFound_clears_id storeOps .v7
      ⟨"w1", "bodyA", true, "w1", none, none, none⟩ []
      (.elastic7Err 404) [] [.getWatch "w1"] rfl rfl).1⟩

/-- C5: on a supporting variant, Update's first backend call is always the
put of the declared id and body (no prior existence probe); a put failure
makes Update return that error with the put as its only backend call, so it
aborts before any activation call and before the Read; and when the put, the
activation chosen by the active flag, and the final get all succeed, Update
succeeds, its trace is exactly put, then activation, then get, and it writes
the refreshed canonical state: watch_id from the tracked id, and body and
active from the get response. -/
theorem watchUpdate_put_then_activate_then_read {σ : Type} (ops : BackendOps σ)
    (v : Variant) (d : ResourceData) (s : σ) (hv : v ≠ .v5) :
    (∃ rest, (resourceElasticsearchWatchUpdate ops v d s).trace
        = .putWatch d.watch_id d.body :: rest)
    ∧ (∀ e s1, ops.putW d.watch_id d.body s = (.error e, s1) →
        resourceElasticsearchWatchUpdate ops v d s
          = ⟨.error e, d, s1, [.putWatch d.watch_id d.body]⟩)
    ∧ (∀ u s1 u2 s2 resp s3,
        ops.putW d.watch_id d.body s = (.ok u, s1) →
        activationOp ops d.active d.watch_id s1 = (.ok u2, s2) →
        ops.getW d.id s2 = (.ok resp, s3) →
        resourceElasticsearchWatchUpdate ops v d s
          = ⟨.ok (),
             { d with writtenBody := some resp.watchJson,
                      writtenWatchId := some d.id,
                      writtenActive := some resp.active },
             s3,
             [.putWatch d.watch_id d.body,
              activationCallOf d.active d.watch_id,
              .getWatch d.id]⟩) := by
  refine ⟨?_, ?_, ?_⟩
  · rcases hp : ops.putW d.watch_id d.body s with ⟨pr, s1⟩
    cases pr with
    | error e =>
      refine ⟨[], ?_⟩
      simp [resourceElasticsearchWatchUpdate,
        putWatch_put_error ops v d s e s1 hv hp]
    | ok u =>
      rcases ha : activationOp ops d.active d.watch_id s1 with ⟨ar, s2⟩
      cases ar with
      | error e2 =>
        refine ⟨[activationCallOf d.active d.watch_id], ?_⟩
        simp [resourceElasticsearchWatchUpdate,
          putWatch_put_ok_act_error ops v d s u s1 e2 s2 hv hp ha]
      | ok u2 =>
        refine ⟨activationCallOf d.active d.watch_id ::
          (resourceElasticsearchWatchRead ops v d s2).trace, ?_⟩
        simp [resourceElasticsearchWatchUpdate,
          putWatch_put_ok_act_ok ops v d s u s1 u2 s2 hv hp ha]
  · intro e s1 hp
    simp [resourceElasticsearchWatchUpdate,
      putWatch_put_error ops v d s e s1 hv hp]
  · intro u s1 u2 s2 resp s3 hp ha hg
    simp [resourceElasticsearchWatchUpdate,
      putWatch_put_ok_act_ok ops v d s u s1 u2 s2 hv hp ha,
      watchRead_get_ok ops v d s2 resp s3 hv hg]

/-- C5 witness: on the store backend holding an older watch, Update with a new
body and active set to false puts, deactivates, reads back, and reports the
updated body with active false. -/
theorem watchUpdate_put_then_activate_then_read_witness :
    storeOps.putW "w1" "bodyB" [("w1", "bodyA", true)]
        = (.ok (), [("w1", "bodyB", true)])
    ∧ activationOp storeOps false "w1" [("w1", "bodyB", true)]
        = (.ok (), [("w1", "bodyB", false)])
    ∧ storeOps.getW "w1" [("w1", "bodyB", false)]
        = (.ok ⟨"bodyB", false⟩, [("w1", "bodyB", false)])
    ∧ resourceElasticsearchWatchUpdate storeOps .v7
        ⟨"w1", "bodyB", false, "w1", none, none, none⟩ [("w1", "bodyA", true)]
      = ⟨.ok (),
         ⟨"w1", "bodyB", false, "w1", some "bodyB", some "w1", some false⟩,
         [("w1", "bodyB", false)],
         [.putWatch "w1" "bodyB", .deactivate "w1", .getWatch "w1"]⟩ :=
  ⟨rfl, rfl, rfl,
   (watchUpdate_put_then_activate_then_read storeOps .v7
      ⟨"w1", "bodyB", false, "w1", none, none, none⟩ [("w1", "bodyA", true)]
      (by decide)).2.2 () [("w1", "bodyB", true)] () [("w1", "bodyB", false)]
      ⟨"bodyB", false⟩ [("w1", "bodyB", false)] rfl rfl rfl⟩

/-- C7: on a supporting variant, within the shared put step used by Create and
Update: a failed put returns without attempting any activation call; a
successful put is followed by exactly one activation call, the one chosen by
the active flag, immediately after the put; a failure of that activation call
fails the put step with the activation error; and that failure propagates so
that both Create (on the not-found branch of its probe) and Update return
failure with that error. -/
theorem activation_attempted_iff_put_succeeds {σ : Type} (ops : BackendOps σ)
    (v : Variant) (d : ResourceData) (hv : v ≠ .v5) :
    (∀ s e s1, ops.putW d.watch_id d.body s = (.error e, s1) →
        resourceElasticsearchPutWatch ops v d s
          = ⟨.error e, s1, [.putWatch d.watch_id d.body]⟩)
    ∧ (∀ s u s1, ops.putW d.watch_id d.body s = (.ok u, s1) →
        (resourceElasticsearchPutWatch ops v d s).trace
          = [.putWatch d.watch_id d.body,
             activationCallOf d.active d.watch_id])
    ∧ (∀ s u s1 e2 s2, ops.putW d.watch_id d.body s = (.ok u, s1) →
        activationOp ops d.active d.watch_id s1 = (.error e2, s2) →
        resourceElasticsearchPutWatch ops v d s
          = ⟨.error e2, s2,
             [.putWatch d.watch_id d.body,
              activationCallOf d.active d.watch_id]⟩)
    ∧ (∀ s0 e0 sg trg u s1 e2 s2,
        resourceElasticsearchGetWatch ops v d.watch_id s0 = ⟨.error e0, sg, trg⟩ →
        watchIsNotFound e0 = true →
        ops.putW d.watch_id d.body sg = (.ok u, s1) →
        activationOp ops d.active d.watch_id s1 = (.error e2, s2) →
        (resourceElasticsearchWatchCreate ops v d s0).result = .error e2)
    ∧ (∀ s u s1 e2 s2, ops.putW d.watch_id d.body s = (.ok u, s1) →
        activationOp ops d.active d.watch_id s1 = (.error e2, s2) →
        (resourceElasticsearchWatchUpdate ops v d s).result = .error e2) := by
  refine ⟨?_, ?_, ?_, ?_, ?_⟩
  · intro s e s1 hp
    exact putWatch_put_error ops v d s e s1 hv hp
  · intro s u s1 hp
    rcases ha : activationOp ops d.active d.watch_id s1 with ⟨ar, s2⟩
    cases ar with
    | error e2 =>
      rw [putWatch_put_ok_act_error ops v d s u s1 e2 s2 hv hp ha]
    | ok u2 =>
      rw [putWatch_put_ok_act_ok ops v d s u s1 u2 s2 hv hp ha]
  · intro s u s1 e2 s2 hp ha
    exact putWatch_put_ok_act_error ops v d s u s1 e2 s2 hv hp ha
  · intro s0 e0 sg trg u s1 e2 s2 hg hnf hp ha
    simp [resourceElasticsearchWatchCreate, hg, hnf,
      putWatch_put_ok_act_error ops v d sg u s1 e2 s2 hv hp ha]
  · intro s u s1 e2 s2 hp ha
    simp [resourceElasticsearchWatchUpdate,
      putWatch_put_ok_act_error ops v d s u s1 e2 s2 hv hp ha]

/-- C7 witness: on the concrete backend whose activation calls fail, a
successful put is followed by the failing activate, and Update reports that
failure. -/
theorem activation_attempted_iff_put_succeeds_witness :
    actFailOps.putW "w1" "bodyA" [] = (.ok (), [("w1", "bodyA", true)])
    ∧ activationOp actFailOps true "w1" [("w1", "bodyA", true)]
        = (.error (.genericErr "activation failed"), [("w1", "bodyA", true)])
    ∧ (resourceElasticsearchWatchUpdate actFailOps .v7
        (freshWatch "w1" "bodyA" true) []).result
      = .error (.genericErr "activation failed") :=
  ⟨rfl, rfl,
   (activation_attempted_iff_put_succeeds actFailOps .v7
      (freshWatch "w1" "bodyA" true) (by decide)).2.2.2.2
     [] () [("w1", "bodyA", true)] (.genericErr "activation failed")
     [("w1", "bodyA", true)] rfl rfl⟩

end Es
